import Mathlib

/-! Shallow embedding of the repository artifact
`libs/ai-endpoints/docs/retrievers/nvidia_rerank.ipynb`, a documentation
notebook with two straight-line retrieval pipelines:

* multi-source: BM25 retrieval, FAISS index load, semantic retrieval,
  concatenation `all_docs = bm25_docs + sem_docs`, rerank via
  `NVIDIARerank().compress_documents`;
* single-source: `PGVector.similarity_search(query, k=1_000)` followed by
  `NVIDIARerank(top_n=10).compress_documents`.

The reranking client itself lives in the `langchain_nvidia_ai_endpoints`
package, which is not part of this artifact; it is modelled from the spec
where noted.  The pipelines are embedded as functions of the external
collaborator responses, returning the run result together with the trace of
external calls made. -/

/-- A LangChain document as passed between the retrievers and the reranker in
the notebook.  The pipeline treats documents as opaque values, so the page
content is kept as an opaque string. -/
structure Document where
  pageContent : String
deriving DecidableEq, Repr

/-- Modelled from the spec: `NVIDIARerank.compress_documents` is implemented in
the external `langchain_nvidia_ai_endpoints` package, whose sources are not in
this artifact (the notebook only calls it).  Per the spec it is "a reranking
client — accepts a query string and a list of candidate documents, returns a
reordered/truncated list by relevance", and "the reranker output length is
bounded by the requested top_n and is a subset of the input documents".  The
server-side scoring is modelled by an oracle `relevance`; the client sorts the
candidates by non-increasing relevance to the query (a stable sort) and keeps
the first `top_n`. -/
def compress_documents (relevance : String → Document → Int) (top_n : Nat)
    (query : String) (documents : List Document) : List Document :=
  (List.insertionSort (fun a b => relevance query b ≤ relevance query a)
    documents).take top_n

/-- The ordering the spec attributes to the reranker output: each document is
at least as relevant to the query as every document after it. -/
def SortedByRelevance (relevance : String → Document → Int) (query : String)
    (l : List Document) : Prop :=
  l.Pairwise (fun a b => relevance query b ≤ relevance query a)

/-- The combination step of the multi-source pipeline, from the notebook cell
`all_docs = bm25_docs + sem_docs` (Python list concatenation). -/
def all_docs (bm25_docs sem_docs : List Document) : List Document :=
  bm25_docs ++ sem_docs

/-- Tags for the operations on external collaborators that the notebook cells
perform.  `display` is included only so that the presence or absence of a
display/print step can be stated; no notebook cell performs one. -/
inductive CallTag where
  | bm25Retrieve
  | faissLoad
  | semRetrieve
  | vectorSearch
  | rerank
  | display
deriving DecidableEq, Repr

/-- The responses of the external collaborators, which fully determine a run of
either pipeline.  Each remote call may fail (modelled as `Except`); on success
the rerank call returns `compress_documents` of the submitted documents, driven
by the server-side `relevance` oracle. -/
structure Env where
  relevance : String → Document → Int
  bm25Response : Except String (List Document)
  faissLoadResponse : Except String Unit
  semResponse : Except String (List Document)
  vectorSearchResponse : Except String (List Document)
  rerankOutcome : Except String Unit

/-- Whether an external response is a success. -/
def respOk {α : Type} : Except String α → Bool
  | .ok _ => true
  | .error _ => false

/-- The intermediate and final variables bound by the multi-source pipeline
cells: `bm25_docs`, `sem_docs`, `all_docs`, `docs`. -/
structure MultiRun where
  bm25_docs : List Document
  sem_docs : List Document
  all_docs : List Document
  docs : List Document
deriving DecidableEq, Repr

/-- The intermediate and final variables bound by the single-source pipeline
cells: `subset_docs`, `docs`. -/
structure SingleRun where
  subset_docs : List Document
  docs : List Document
deriving DecidableEq, Repr

/-- The `top_n` the single-source pipeline requests: `NVIDIARerank(top_n=10)`. -/
def singleSource_top_n : Nat := 10

/-- The `k` the single-source pipeline requests from the vector store:
`store.similarity_search(query, k=1_000)`. -/
def singleSource_k : Nat := 1000

/-- The multi-source pipeline of the notebook, one cell after another:
`bm25_docs = bm25_retriever.get_relevant_documents(query)`, the FAISS index
load, `sem_docs = sem_retriever.get_relevant_documents(query)`,
`all_docs = bm25_docs + sem_docs`, and
`docs = ranker.compress_documents(query=query, documents=all_docs)`.
A failing call aborts the run (notebook code installs no handler); the second
component is the trace of external calls made, in order.  `top_n` is the
requested size the client default carries (the notebook leaves
`NVIDIARerank()` at its default here). -/
def runMultiSource (env : Env) (query : String) (top_n : Nat) :
    Except String MultiRun × List CallTag :=
  match env.bm25Response with
  | .error e => (.error e, [.bm25Retrieve])
  | .ok bm25_docs =>
    match env.faissLoadResponse with
    | .error e => (.error e, [.bm25Retrieve, .faissLoad])
    | .ok _ =>
      match env.semResponse with
      | .error e => (.error e, [.bm25Retrieve, .faissLoad, .semRetrieve])
      | .ok sem_docs =>
        match env.rerankOutcome with
        | .error e =>
          (.error e, [.bm25Retrieve, .faissLoad, .semRetrieve, .rerank])
        | .ok _ =>
          (.ok { bm25_docs := bm25_docs, sem_docs := sem_docs,
                 all_docs := all_docs bm25_docs sem_docs,
                 docs := compress_documents env.relevance top_n query
                           (all_docs bm25_docs sem_docs) },
           [.bm25Retrieve, .faissLoad, .semRetrieve, .rerank])

/-- The single-source pipeline of the notebook:
`subset_docs = store.similarity_search(query, k=1_000)` followed by
`docs = ranker.compress_documents(query=query, documents=subset_docs)` with
`ranker = NVIDIARerank(top_n=10)`. -/
def runSingleSource (env : Env) (query : String) :
    Except String SingleRun × List CallTag :=
  match env.vectorSearchResponse with
  | .error e => (.error e, [.vectorSearch])
  | .ok subset_docs =>
    match env.rerankOutcome with
    | .error e => (.error e, [.vectorSearch, .rerank])
    | .ok _ =>
      (.ok { subset_docs := subset_docs,
             docs := compress_documents env.relevance singleSource_top_n query
                       subset_docs },
       [.vectorSearch, .rerank])

/-- Verbatim source text of the `FAISS.load_local` statement of the semantic
retrieval cell of the notebook (the statement whose syntax is at issue). -/
def cell10_load_local : String :=
  "sem_retriever = FAISS.load_local(\"langchain_index\", embeddings=embeddings\n                                 allow_dangerous_deserialization=allow_dangerous_deserialization).as_retriever()"

/-- The same statement with one comma inserted after the second argument
`embeddings=embeddings`, and nothing else changed. -/
def cell10_load_local_with_comma : String :=
  "sem_retriever = FAISS.load_local(\"langchain_index\", embeddings=embeddings,\n                                 allow_dangerous_deserialization=allow_dangerous_deserialization).as_retriever()"

/-- Splits a character list on a separator character; the separator is dropped
and the pieces between occurrences are returned in order. -/
def splitOnChar (sep : Char) : List Char → List (List Char)
  | [] => [[]]
  | c :: cs =>
    if c = sep then
      [] :: splitOnChar sep cs
    else
      match splitOnChar sep cs with
      | [] => [[c]]
      | g :: gs => (c :: g) :: gs

/-- The double-quote character, written by code point. -/
def quoteChar : Char := Char.ofNat 34

/-- The characters between the first opening parenthesis of a statement and
the matching first closing parenthesis, with all whitespace removed — for the
statement at hand, the argument-list text of the `FAISS.load_local` call. -/
def callArgChars (stmt : String) : List Char :=
  ((((stmt.toList.filter (fun c => !c.isWhitespace)).dropWhile
      (fun c => c != '(')).drop 1).takeWhile (fun c => c != ')'))

/-- Whether a character may occur in a Python identifier. -/
def pyIdentChar (c : Char) : Bool := c.isAlphanum || c == '_'

/-- Whether a character list is a Python identifier: nonempty, made of
identifier characters, not starting with a digit. -/
def pyIdent (s : List Char) : Bool :=
  !s.isEmpty && s.all pyIdentChar && !(s.headD '_').isDigit

/-- Whether a character list is a simple double-quoted Python string literal
with no embedded quote. -/
def pyStringLit (s : List Char) : Bool :=
  match s with
  | [] => false
  | c :: rest =>
    c == quoteChar &&
    (match rest.getLast? with
     | some d => d == quoteChar && rest.dropLast.all (fun x => x != quoteChar)
     | none => false)

/-- Whether a character list is an argument expression of the shapes the cell
uses: an identifier or a string literal. -/
def pyArgExpr (s : List Char) : Bool := pyIdent s || pyStringLit s

/-- Whether a character list is a well-formed Python call argument of the
shapes the cell uses: a positional expression, or one keyword `name=expr`.
Two expressions juxtaposed without a separating comma (which in Python read as
`expr=expr=expr` once whitespace is removed) are rejected, as the Python
grammar rejects them with a SyntaxError. -/
def pyArg (s : List Char) : Bool :=
  match splitOnChar '=' s with
  | [e] => pyArgExpr e
  | [k, v] => pyIdent k && pyArgExpr v
  | _ => false

/-- Whether every comma-separated argument of the call in a statement is a
well-formed Python argument. -/
def callArgListValid (stmt : String) : Bool :=
  (splitOnChar ',' (callArgChars stmt)).all pyArg

/-- Concrete fixture: a BM25 result document. -/
def docA : Document := ⟨"the meaning of life is 42"⟩

/-- Concrete fixture: a second BM25 result document. -/
def docB : Document := ⟨"money"⟩

/-- Concrete fixture: a semantic result document. -/
def docC : Document := ⟨"life is a journey"⟩

/-- Concrete fixture: a relevance oracle scoring a document by the length of
its page content. -/
def rel0 : String → Document → Int := fun _ d => Int.ofNat d.pageContent.length

/-- Concrete fixture: the query string the notebook uses. -/
def query0 : String := "What is the meaning of life?"

/-- Concrete fixture: an environment in which every external call succeeds. -/
def envOk : Env :=
  { relevance := rel0
    bm25Response := .ok [docA, docB]
    faissLoadResponse := .ok ()
    semResponse := .ok [docC]
    vectorSearchResponse := .ok [docA, docC]
    rerankOutcome := .ok () }

/-- Concrete fixture: an environment identical to `envOk`, written out a
second time, for the determinism claim. -/
def envOkTwin : Env :=
  { relevance := rel0
    bm25Response := .ok [docA, docB]
    faissLoadResponse := .ok ()
    semResponse := .ok [docC]
    vectorSearchResponse := .ok [docA, docC]
    rerankOutcome := .ok () }

/-- Concrete fixture: an environment in which the BM25 retrieval fails. -/
def envBm25Down : Env := { envOk with bm25Response := .error "connection refused" }

/-- Concrete fixture: an environment in which the rerank call fails. -/
def envRerankDown : Env := { envOk with rerankOutcome := .error "503" }

/-- Claim C1: for every relevance oracle, requested `top_n`, query and input
document list, the list returned by the reranker `compress_documents` has
length at most the requested `top_n` (10 in the single-source pipeline, the
client default in the multi-source pipeline — the bound holds for every
`top_n`) and also at most the length of the input list. -/
theorem compress_documents_length_le
    (relevance : String → Document → Int) (top_n : Nat) (query : String)
    (documents : List Document) :
    (compress_documents relevance top_n query documents).length ≤ top_n ∧
    (compress_documents relevance top_n query documents).length ≤
      documents.length := by
  unfold compress_documents
  constructor
  · exact List.length_take_le top_n _
  · exact ((List.take_sublist _ _).length_le).trans
      (le_of_eq (List.length_insertionSort _ _))

/-- Claim C2: for every query and input document list, every document in the
list returned by `compress_documents` is an element of the input list, and no
document occurs in the output more often than in the input (the output is a
subset of the input, with no document invented or duplicated beyond its input
multiplicity). -/
theorem compress_documents_subset
    (relevance : String → Document → Int) (top_n : Nat) (query : String)
    (documents : List Document) :
    (∀ d ∈ compress_documents relevance top_n query documents,
      d ∈ documents) ∧
    (∀ d : Document,
      (compress_documents relevance top_n query documents).count d ≤
        documents.count d) := by
  constructor
  · intro d hd
    have h1 : d ∈ List.insertionSort
        (fun a b => relevance query b ≤ relevance query a) documents :=
      (List.take_sublist _ _).subset hd
    exact (List.mem_insertionSort _).1 h1
  · intro d
    have h1 := (List.take_sublist top_n (List.insertionSort
      (fun a b => relevance query b ≤ relevance query a) documents)).count_le d
    have h2 := (List.perm_insertionSort
      (fun a b => relevance query b ≤ relevance query a) documents).count_eq d
    unfold compress_documents
    omega

/-- Witness for C2 at a concrete input: `docA` is in the reranked list for the
two-document input, hence in the input, and the count bound holds for `docB`. -/
theorem compress_documents_subset_witness :
    docA ∈ ([docA, docB] : List Document) ∧
    (compress_documents rel0 1 "q" [docA, docB]).count docB ≤
      ([docA, docB] : List Document).count docB :=
  ⟨(compress_documents_subset rel0 1 "q" [docA, docB]).1 docA (by decide),
   (compress_documents_subset rel0 1 "q" [docA, docB]).2 docB⟩

/-- Claim C3: for every relevance oracle, `top_n`, query and candidate list,
the list returned by `compress_documents` is ordered by relevance to the
query: each document is at least as relevant as every document after it. -/
theorem compress_documents_sorted
    (relevance : String → Document → Int) (top_n : Nat) (query : String)
    (documents : List Document) :
    SortedByRelevance relevance query
      (compress_documents relevance top_n query documents) := by
  haveI : IsTotal Document (fun a b => relevance query b ≤ relevance query a) :=
    ⟨fun a b => le_total _ _⟩
  haveI : IsTrans Document (fun a b => relevance query b ≤ relevance query a) :=
    ⟨fun a b c h1 h2 => le_trans h2 h1⟩
  have hs := List.sorted_insertionSort
    (fun a b => relevance query b ≤ relevance query a) documents
  exact List.Pairwise.sublist (List.take_sublist _ _) hs

/-- Claim C4: the combined list of the multi-source pipeline equals the
concatenation of the BM25 results and the semantic results: its length is the
sum of the two lengths, every BM25 document precedes every semantic document
(positions below the BM25 length hold the BM25 documents in their original
order), and positions from the BM25 length on hold the semantic documents in
their original order. -/
theorem all_docs_concatenation (bm25_docs sem_docs : List Document) :
    all_docs bm25_docs sem_docs = bm25_docs ++ sem_docs ∧
    (all_docs bm25_docs sem_docs).length =
      bm25_docs.length + sem_docs.length ∧
    (∀ i, i < bm25_docs.length →
      (all_docs bm25_docs sem_docs)[i]? = bm25_docs[i]?) ∧
    (∀ j, (all_docs bm25_docs sem_docs)[bm25_docs.length + j]? =
      sem_docs[j]?) := by
  refine ⟨rfl, by simp [all_docs], fun i hi => ?_, fun j => ?_⟩
  · unfold all_docs
    rw [List.getElem?_append, if_pos hi]
  · unfold all_docs
    rw [List.getElem?_append, if_neg (by omega)]
    congr 1
    omega

/-- Witness for C4 at a concrete input: with two BM25 documents and one
semantic document, position 1 of the combined list is the second BM25
document and the position after the BM25 block is the semantic document. -/
theorem all_docs_concatenation_witness :
    1 < ([docA, docB] : List Document).length ∧
    (all_docs [docA, docB] [docC])[1]? = ([docA, docB] : List Document)[1]? ∧
    (all_docs [docA, docB] [docC])[([docA, docB] : List Document).length + 0]? =
      ([docC] : List Document)[0]? :=
  ⟨by decide,
   (all_docs_concatenation [docA, docB] [docC]).2.2.1 1 (by decide),
   (all_docs_concatenation [docA, docB] [docC]).2.2.2 0⟩

/-- Claim C5: the `FAISS.load_local` statement of the semantic retrieval cell
is not syntactically valid Python: with whitespace removed, its argument list
splits on commas into the string literal and one piece holding two keyword
arguments juxtaposed with no separating comma (`embeddings=embeddings`
directly followed by `allow_dangerous_deserialization=...`), which the
argument grammar rejects; inserting the one missing comma makes every
argument well formed. -/
theorem faiss_load_local_missing_comma :
    callArgListValid cell10_load_local = false ∧
    callArgListValid cell10_load_local_with_comma = true ∧
    splitOnChar ',' (callArgChars cell10_load_local) =
      [("\"langchain_index\"").toList,
       ("embeddings=embeddingsallow_dangerous_deserialization=allow_dangerous_deserialization").toList] := by
  refine ⟨by decide, by decide, by decide⟩

/-- Counterexample for C6: in a concrete run of the multi-source pipeline in
which every external call succeeds, the trace of operations performed contains
no display step — the notebook ends the pipeline by binding the reranked
documents to `docs`, and no cell prints or displays them. -/
theorem multi_pipeline_no_display :
    CallTag.display ∉ (runMultiSource envOk query0 5).2 := by
  decide

/-- Claim C6 as amended: the multi-source pipeline performs exactly the steps
BM25 fetch, FAISS index load, semantic fetch, rerank of the concatenation, in
that order; the final step binds the reranked concatenation to `docs`, and no
display/print step occurs. -/
theorem multi_pipeline_step_order (env : Env) (query : String) (top_n : Nat)
    (bm25_docs sem_docs : List Document)
    (hb : env.bm25Response = .ok bm25_docs)
    (hf : env.faissLoadResponse = .ok ())
    (hs : env.semResponse = .ok sem_docs)
    (hr : env.rerankOutcome = .ok ()) :
    runMultiSource env query top_n =
      (.ok { bm25_docs := bm25_docs, sem_docs := sem_docs,
             all_docs := all_docs bm25_docs sem_docs,
             docs := compress_documents env.relevance top_n query
                       (all_docs bm25_docs sem_docs) },
       [.bm25Retrieve, .faissLoad, .semRetrieve, .rerank]) ∧
    CallTag.display ∉ (runMultiSource env query top_n).2 := by
  have h : runMultiSource env query top_n =
      (.ok { bm25_docs := bm25_docs, sem_docs := sem_docs,
             all_docs := all_docs bm25_docs sem_docs,
             docs := compress_documents env.relevance top_n query
                       (all_docs bm25_docs sem_docs) },
       [.bm25Retrieve, .faissLoad, .semRetrieve, .rerank]) := by
    unfold runMultiSource
    rw [hb, hf, hs, hr]
  exact ⟨h, by rw [h]; simp⟩

/-- Witness for the amended C6 at a concrete successful environment. -/
theorem multi_pipeline_step_order_witness :
    runMultiSource envOk query0 5 =
      (.ok { bm25_docs := [docA, docB], sem_docs := [docC],
             all_docs := all_docs [docA, docB] [docC],
             docs := compress_documents envOk.relevance 5 query0
                       (all_docs [docA, docB] [docC]) },
       [.bm25Retrieve, .faissLoad, .semRetrieve, .rerank]) ∧
    CallTag.display ∉ (runMultiSource envOk query0 5).2 :=
  multi_pipeline_step_order envOk query0 5 [docA, docB] [docC] rfl rfl rfl rfl

/-- Claim C7: the notebook installs no error handling: whichever external call
fails first (BM25 retrieval, FAISS load, semantic retrieval, vector search,
rerank), its error propagates as the result of the run, and the trace shows
that no subsequent step of the pipeline executes (results of earlier steps are
the unmodified earlier responses). -/
theorem pipeline_error_propagation (env : Env) (query : String) (top_n : Nat)
    (e : String) :
    (env.bm25Response = .error e →
      runMultiSource env query top_n = (.error e, [.bm25Retrieve])) ∧
    (∀ bm25_docs, env.bm25Response = .ok bm25_docs →
      env.faissLoadResponse = .error e →
      runMultiSource env query top_n =
        (.error e, [.bm25Retrieve, .faissLoad])) ∧
    (∀ bm25_docs, env.bm25Response = .ok bm25_docs →
      env.faissLoadResponse = .ok () → env.semResponse = .error e →
      runMultiSource env query top_n =
        (.error e, [.bm25Retrieve, .faissLoad, .semRetrieve])) ∧
    (∀ bm25_docs sem_docs, env.bm25Response = .ok bm25_docs →
      env.faissLoadResponse = .ok () → env.semResponse = .ok sem_docs →
      env.rerankOutcome = .error e →
      runMultiSource env query top_n =
        (.error e, [.bm25Retrieve, .faissLoad, .semRetrieve, .rerank])) ∧
    (env.vectorSearchResponse = .error e →
      runSingleSource env query = (.error e, [.vectorSearch])) ∧
    (∀ subset_docs, env.vectorSearchResponse = .ok subset_docs →
      env.rerankOutcome = .error e →
      runSingleSource env query = (.error e, [.vectorSearch, .rerank])) := by
  refine ⟨fun h1 => ?_, fun b h1 h2 => ?_, fun b h1 h2 h3 => ?_,
    fun b s h1 h2 h3 h4 => ?_, fun h1 => ?_, fun sd h1 h2 => ?_⟩
  · unfold runMultiSource; rw [h1]
  · unfold runMultiSource; rw [h1, h2]
  · unfold runMultiSource; rw [h1, h2, h3]
  · unfold runMultiSource; rw [h1, h2, h3, h4]
  · unfold runSingleSource; rw [h1]
  · unfold runSingleSource; rw [h1, h2]

/-- Witness for C7 at concrete failing environments: a failed BM25 retrieval
aborts the multi-source pipeline at once, and a failed rerank call aborts the
single-source pipeline after the vector search. -/
theorem pipeline_error_propagation_witness :
    runMultiSource envBm25Down query0 5 =
      (.error "connection refused", [.bm25Retrieve]) ∧
    runSingleSource envRerankDown query0 =
      (.error "503", [.vectorSearch, .rerank]) :=
  ⟨(pipeline_error_propagation envBm25Down query0 5 "connection refused").1
     rfl,
   (pipeline_error_propagation envRerankDown query0 5 "503").2.2.2.2.2
     [docA, docC] rfl rfl⟩

/-- Claim C8: the rerank call leaves its inputs unchanged: in a successful run
the variables bound by earlier cells — `bm25_docs`, `sem_docs`, `all_docs` in
the multi-source pipeline, `subset_docs` in the single-source pipeline — still
hold exactly the documents the collaborators returned, in the same order, and
`all_docs` still equals `bm25_docs ++ sem_docs` after the call. -/
theorem compress_documents_frame (env : Env) (query : String) (top_n : Nat)
    (bm25_docs sem_docs subset_docs : List Document)
    (hb : env.bm25Response = .ok bm25_docs)
    (hf : env.faissLoadResponse = .ok ())
    (hs : env.semResponse = .ok sem_docs)
    (hv : env.vectorSearchResponse = .ok subset_docs)
    (hr : env.rerankOutcome = .ok ()) :
    (∃ r : MultiRun, (runMultiSource env query top_n).1 = .ok r ∧
      r.bm25_docs = bm25_docs ∧ r.sem_docs = sem_docs ∧
      r.all_docs = bm25_docs ++ sem_docs ∧
      r.all_docs = r.bm25_docs ++ r.sem_docs) ∧
    (∃ sr : SingleRun, (runSingleSource env query).1 = .ok sr ∧
      sr.subset_docs = subset_docs) := by
  have hm : (runMultiSource env query top_n).1 =
      .ok { bm25_docs := bm25_docs, sem_docs := sem_docs,
            all_docs := all_docs bm25_docs sem_docs,
            docs := compress_documents env.relevance top_n query
                      (all_docs bm25_docs sem_docs) } := by
    unfold runMultiSource
    rw [hb, hf, hs, hr]
  have hsg : (runSingleSource env query).1 =
      .ok { subset_docs := subset_docs,
            docs := compress_documents env.relevance singleSource_top_n query
                      subset_docs } := by
    unfold runSingleSource
    rw [hv, hr]
  exact ⟨⟨_, hm, rfl, rfl, rfl, rfl⟩, ⟨_, hsg, rfl⟩⟩

/-- Witness for C8 at the concrete all-success environment. -/
theorem compress_documents_frame_witness :
    (∃ r : MultiRun, (runMultiSource envOk query0 5).1 = .ok r ∧
      r.bm25_docs = [docA, docB] ∧ r.sem_docs = [docC] ∧
      r.all_docs = [docA, docB] ++ [docC] ∧
      r.all_docs = r.bm25_docs ++ r.sem_docs) ∧
    (∃ sr : SingleRun, (runSingleSource envOk query0).1 = .ok sr ∧
      sr.subset_docs = [docA, docC]) :=
  compress_documents_frame envOk query0 5 [docA, docB] [docC] [docA, docC]
    rfl rfl rfl rfl rfl

/-- Claim C9: each pipeline is a deterministic straight-line function of the
external collaborator responses: two runs whose collaborators return identical
responses produce identical results — every intermediate list and the final
`docs` coincide.  The embedding is a pure function of the responses, which is
exactly the absence of branching and of state shared between steps. -/
theorem pipeline_deterministic (env1 env2 : Env) (query : String)
    (top_n : Nat)
    (hrel : env1.relevance = env2.relevance)
    (hb : env1.bm25Response = env2.bm25Response)
    (hf : env1.faissLoadResponse = env2.faissLoadResponse)
    (hs : env1.semResponse = env2.semResponse)
    (hv : env1.vectorSearchResponse = env2.vectorSearchResponse)
    (hr : env1.rerankOutcome = env2.rerankOutcome) :
    runMultiSource env1 query top_n = runMultiSource env2 query top_n ∧
    runSingleSource env1 query = runSingleSource env2 query := by
  obtain ⟨r1, b1, f1, s1, v1, k1⟩ := env1
  obtain ⟨r2, b2, f2, s2, v2, k2⟩ := env2
  cases hrel; cases hb; cases hf; cases hs; cases hv; cases hr
  exact ⟨rfl, rfl⟩

/-- Witness for C9 at two concrete syntactically distinct environments with
identical responses. -/
theorem pipeline_deterministic_witness :
    runMultiSource envOk query0 5 = runMultiSource envOkTwin query0 5 ∧
    runSingleSource envOk query0 = runSingleSource envOkTwin query0 :=
  pipeline_deterministic envOk envOkTwin query0 5 rfl rfl rfl rfl rfl rfl

/-- Claim C10: in every execution of either pipeline each remote operation is
invoked at most once — the code never retries a call or applies backoff — and
in an execution in which every call succeeds each operation of the pipeline is
invoked exactly once, in pipeline order. -/
theorem remote_calls_invoked_once (env : Env) (query : String)
    (top_n : Nat) :
    (∀ t : CallTag,
      (runMultiSource env query top_n).2.count t ≤ 1 ∧
      (runSingleSource env query).2.count t ≤ 1) ∧
    (respOk env.bm25Response = true → respOk env.faissLoadResponse = true →
      respOk env.semResponse = true → respOk env.rerankOutcome = true →
      (runMultiSource env query top_n).2 =
        [.bm25Retrieve, .faissLoad, .semRetrieve, .rerank]) ∧
    (respOk env.vectorSearchResponse = true →
      respOk env.rerankOutcome = true →
      (runSingleSource env query).2 = [.vectorSearch, .rerank]) := by
  obtain ⟨r, b, f, s, v, k⟩ := env
  refine ⟨fun t => ⟨?_, ?_⟩, fun h1 h2 h3 h4 => ?_, fun h1 h2 => ?_⟩
  · cases b <;> cases f <;> cases s <;> cases k <;> cases t <;>
      simp [runMultiSource, List.count_cons, List.count_nil]
  · cases v <;> cases k <;> cases t <;>
      simp [runSingleSource, List.count_cons, List.count_nil]
  · cases b <;> cases f <;> cases s <;> cases k <;>
      simp_all [runMultiSource, respOk]
  · cases v <;> cases k <;> simp_all [runSingleSource, respOk]

/-- Witness for C10 at the concrete all-success environment: the rerank call
is counted at most once, and both success traces are the full pipelines. -/
theorem remote_calls_invoked_once_witness :
    (runMultiSource envOk query0 5).2.count CallTag.rerank ≤ 1 ∧
    (runMultiSource envOk query0 5).2 =
      [.bm25Retrieve, .faissLoad, .semRetrieve, .rerank] ∧
    (runSingleSource envOk query0).2 = [.vectorSearch, .rerank] :=
  ⟨((remote_calls_invoked_once envOk query0 5).1 CallTag.rerank).1,
   (remote_calls_invoked_once envOk query0 5).2.1 rfl rfl rfl rfl,
   (remote_calls_invoked_once envOk query0 5).2.2 rfl rfl⟩
